import Mathlib

/-!
Verification of the stellr holdback escrow contract
(src/contracts/hello-world/src/hold_back_contract.rs, entities.rs, errors.rs).

The contract state (admin entry, transaction counter, transaction store) is
embedded as a Lean structure; the persistent key-value store of the host is
modelled as the three fields of that structure.  Machine integers are Nat
with explicit bounds: u128 values live below 2^128, the Rust cast
`x as i128` is the function toI128, and u128 arithmetic that the source
performs unchecked traps on overflow (the build profile of Soroban
contracts enables overflow checks, and the specification describes checked
and saturating arithmetic as the means to avoid overflow panics).  Token
balance and allowance queries and the ledger timestamp are inputs in an
ExtEnv record; token transfers performed by a call are returned as a list.
-/

namespace Stellr

/-- Principal and contract identities (soroban Address), abstract. -/
abbrev Address := Nat

/-- entities.rs TransactionStatus. -/
inductive TransactionStatus where
  | Held
  | HoldbackPending
  | Completed
  | Cancelled
  | Disputed
deriving DecidableEq

/-- entities.rs Transaction record. -/
structure Transaction where
  buyer : Address
  seller : Address
  amount : Nat
  token : Address
  holdback_rate : Nat
  holdback_amount : Nat
  final_amount : Nat
  release_time : Nat
  status : TransactionStatus
deriving DecidableEq

/-- errors.rs Error enum. -/
inductive Error where
  | NotInitialized
  | InvalidAmount
  | InvalidHoldbackRate
  | InvalidBuyer
  | InvalidSeller
  | TransactionNotFound
  | InvalidStatus
  | Unauthorized
  | AlreadyInitialized
  | InsufficientBalance
  | InvalidHoldbackDays
  | RateLimitExceeded
  | Paused
  | TransferFailed
  | InsufficientAllowance
deriving DecidableEq

/-- One token transfer performed by the contract (src, dst, i128 amount). -/
structure Transfer where
  src : Address
  dst : Address
  amount : Int
deriving DecidableEq

/-- The persistent storage of the contract: the Admin entry, the
TransactionCounter entry and the Transaction(id) entries of DataKey. -/
structure ContractState where
  admin : Option Address
  txCounter : Option Nat
  transactions : Nat → Option Transaction

/-- Outcome of a raw call body: a return value, a returned error, or an
arithmetic overflow trap. -/
inductive RawRes (α : Type) where
  | ok : α → RawRes α
  | err : Error → RawRes α
  | trap : RawRes α
deriving DecidableEq

/-- A raw call outcome together with the storage it leaves behind and the
token transfers it performed, in order. -/
abbrev CallOut (α : Type) := RawRes α × ContractState × List Transfer

def DAY_IN_SECONDS : Nat := 86400

def U64_MAX : Nat := 2 ^ 64 - 1

def U128_MOD : Nat := 2 ^ 128

def I128_MAX : Int := 2 ^ 127 - 1

/-- The Rust cast `x as i128` of a u128 value: reinterpret the bits. -/
def toI128 (n : Nat) : Int :=
  if n < 2 ^ 127 then (n : Int) else (n : Int) - 2 ^ 128

/-- u128 checked_sub. -/
def checkedSub (a b : Nat) : Option Nat :=
  if b ≤ a then some (a - b) else none

/-- u128 checked_add. -/
def checkedAddU128 (a b : Nat) : Option Nat :=
  if a + b < U128_MOD then some (a + b) else none

/-- u64 checked_add. -/
def checkedAddU64 (a b : Nat) : Option Nat :=
  if a + b ≤ U64_MAX then some (a + b) else none

/-- u64 saturating_mul. -/
def satMulU64 (a b : Nat) : Nat :=
  min (a * b) U64_MAX

/-- storage get of DataKey.Transaction(id). -/
def getTx (s : ContractState) (id : Nat) : Option Transaction :=
  s.transactions id

/-- storage set of DataKey.Transaction(id). -/
def setTx (s : ContractState) (id : Nat) (t : Transaction) : ContractState :=
  { s with transactions := fun j => if j = id then some t else s.transactions j }

/-- Host-supplied inputs of one call: the ledger timestamp, the address of
this contract, and the token balance and allowance of the buyer as the
token client reports them. -/
structure ExtEnv where
  now : Nat
  contractAddr : Address
  bal : Int
  allowance : Int

/-- hold_back_contract.rs initialize (renamed: the source name is a
reserved word in Lean). -/
def initializeContract (s : ContractState) (admin : Address) : CallOut Bool :=
  if s.admin.isSome then (.err .AlreadyInitialized, s, [])
  else (.ok true, { s with admin := some admin }, [])

/-- The transfers the body of create_payment performs once its checks have
passed: transfer_from pulls the amount from the buyer into the contract,
and the final amount is forwarded to the seller when it is nonzero. -/
def createTransfers (e : ExtEnv) (buyer seller : Address)
    (amount final_amount : Nat) : List Transfer :=
  if final_amount > 0 then
    [⟨buyer, e.contractAddr, toI128 amount⟩,
     ⟨e.contractAddr, seller, toI128 final_amount⟩]
  else [⟨buyer, e.contractAddr, toI128 amount⟩]

/-- hold_back_contract.rs create_payment.  require_auth of the buyer is the
host precondition that the caller is the buyer; balance and allowance
queries read ExtEnv; the u128 multiplication amount * holdback_rate traps
on overflow. -/
def create_payment (s : ContractState) (e : ExtEnv) (buyer seller : Address)
    (amount : Nat) (token : Address) (holdback_rate holdback_days : Nat) :
    CallOut Nat :=
  match s.admin with
  | none => (.err .NotInitialized, s, [])
  | some admin =>
    if amount = 0 ∨ toI128 amount > I128_MAX then (.err .InvalidAmount, s, [])
    else if holdback_rate = 0 ∨ holdback_rate > 100 then
      (.err .InvalidHoldbackRate, s, [])
    else if buyer = seller ∨ buyer = admin ∨ seller = admin then
      (.err .InvalidBuyer, s, [])
    else if buyer = token ∨ seller = token then (.err .InvalidSeller, s, [])
    else if U128_MOD ≤ amount * holdback_rate then (.trap, s, [])
    else
      match checkedSub amount (amount * holdback_rate / 100) with
      | none => (.err .InvalidAmount, s, [])
      | some final_amount =>
        if e.bal < toI128 amount then (.err .InsufficientBalance, s, [])
        else if e.allowance < toI128 amount then
          (.err .InsufficientAllowance, s, [])
        else
          match checkedAddU128 (s.txCounter.getD 0) 1 with
          | none => (.err .InvalidAmount, s,
              createTransfers e buyer seller amount final_amount)
          | some transaction_id =>
            match checkedAddU64 e.now (satMulU64 holdback_days DAY_IN_SECONDS) with
            | none => (.err .InvalidAmount,
                { s with txCounter := some transaction_id },
                createTransfers e buyer seller amount final_amount)
            | some release_time =>
              (.ok transaction_id,
                setTx { s with txCounter := some transaction_id }
                  transaction_id
                  { buyer := buyer, seller := seller, amount := amount,
                    token := token, holdback_rate := holdback_rate,
                    holdback_amount := amount * holdback_rate / 100,
                    final_amount := final_amount,
                    release_time := release_time, status := .Held },
                createTransfers e buyer seller amount final_amount)

/-- hold_back_contract.rs release_holdback_if_due (private helper). -/
def release_holdback_if_due (s : ContractState) (e : ExtEnv)
    (transaction_id : Nat) : CallOut Unit :=
  match getTx s transaction_id with
  | none => (.err .TransactionNotFound, s, [])
  | some txn =>
    if txn.status = .HoldbackPending ∨
        (txn.status = .Held ∧ txn.release_time ≤ e.now) then
      (.ok (), setTx s transaction_id { txn with status := .Completed },
        [⟨e.contractAddr, txn.seller, toI128 txn.holdback_amount⟩])
    else (.ok (), s, [])

/-- hold_back_contract.rs approve_release. -/
def approve_release (s : ContractState) (e : ExtEnv) (transaction_id : Nat)
    (buyer : Address) : CallOut Unit :=
  match getTx s transaction_id with
  | none => (.err .TransactionNotFound, s, [])
  | some txn =>
    if txn.buyer ≠ buyer then (.err .Unauthorized, s, [])
    else if txn.status ≠ .Held then (.err .InvalidStatus, s, [])
    else
      release_holdback_if_due
        (setTx s transaction_id { txn with status := .HoldbackPending })
        e transaction_id

/-- hold_back_contract.rs initiate_dispute. -/
def initiate_dispute (s : ContractState) (transaction_id : Nat)
    (buyer : Address) : CallOut Unit :=
  match getTx s transaction_id with
  | none => (.err .TransactionNotFound, s, [])
  | some txn =>
    if txn.buyer ≠ buyer then (.err .Unauthorized, s, [])
    else if txn.status ≠ .Held ∧ txn.status ≠ .HoldbackPending then
      (.err .InvalidStatus, s, [])
    else
      (.ok (), setTx s transaction_id { txn with status := .Disputed }, [])

/-- hold_back_contract.rs resolve_dispute. -/
def resolve_dispute (s : ContractState) (e : ExtEnv) (transaction_id : Nat)
    (refund : Bool) (admin : Address) : CallOut Unit :=
  match s.admin with
  | none => (.err .NotInitialized, s, [])
  | some stored_admin =>
    if admin ≠ stored_admin then (.err .Unauthorized, s, [])
    else match getTx s transaction_id with
    | none => (.err .TransactionNotFound, s, [])
    | some txn =>
      if txn.status ≠ .Disputed then (.err .InvalidStatus, s, [])
      else if refund then
        (.ok (), setTx s transaction_id { txn with status := .Cancelled },
          [⟨e.contractAddr, txn.buyer, toI128 txn.holdback_amount⟩])
      else
        (.ok (), setTx s transaction_id { txn with status := .Completed },
          [⟨e.contractAddr, txn.seller, toI128 txn.holdback_amount⟩])

/-- hold_back_contract.rs check_and_release. -/
def check_and_release (s : ContractState) (e : ExtEnv)
    (transaction_id : Nat) : CallOut Unit :=
  match getTx s transaction_id with
  | none => (.err .TransactionNotFound, s, [])
  | some txn =>
    if txn.status = .Disputed then (.err .InvalidStatus, s, [])
    else release_holdback_if_due s e transaction_id

/-- hold_back_contract.rs get_transaction. -/
def get_transaction (s : ContractState) (transaction_id : Nat) :
    RawRes Transaction :=
  match getTx s transaction_id with
  | none => .err .TransactionNotFound
  | some txn => .ok txn

/-- hold_back_contract.rs get_admin. -/
def get_admin (s : ContractState) : RawRes Address :=
  match s.admin with
  | none => .err .NotInitialized
  | some a => .ok a

/-- Modelled from the spec: the Soroban host commits storage writes and
sub-contract transfers all-or-nothing per call, which is not part of the
repository sources — a call that ends in an error (or a trap) persists no
writes and no transfers; only a call that returns a value commits.  This
wrapper turns a raw call body into the state the caller observes. -/
def observe {α : Type} (s : ContractState) (r : CallOut α) : CallOut α :=
  match r with
  | (.ok a, s1, tr) => (.ok a, s1, tr)
  | (.err e, _, _) => (.err e, s, [])
  | (.trap, _, _) => (.trap, s, [])

/-- Repeated check_and_release: runs the call n times from a state,
threading storage and concatenating the transfers of all the calls. -/
def iterate_check (e : ExtEnv) (transaction_id : Nat) :
    Nat → ContractState → ContractState × List Transfer
  | 0, s => (s, [])
  | n + 1, s =>
    let r := check_and_release s e transaction_id
    let rest := iterate_check e transaction_id n r.2.1
    (rest.1, r.2.2 ++ rest.2)

/-- Every stored transaction id is at most the stored counter; this holds
in every state reachable through the public surface. -/
def idsBounded (s : ContractState) : Prop :=
  ∀ j, (s.transactions j).isSome → j ≤ s.txCounter.getD 0

/-! Concrete scenario used by witnesses: admin 9, buyer 1, seller 2,
token 3, contract address 10; a creation of 1000 units at holdback rate
20 percent for 5 days, then the buyer approval, and the dispute path. -/

def sInit : ContractState :=
  { admin := some 9, txCounter := none, transactions := fun _ => none }

def eStd : ExtEnv := ⟨0, 10, 1000, 1000⟩

def eRich : ExtEnv := ⟨0, 10, I128_MAX, I128_MAX⟩

def eMaxTime : ExtEnv := ⟨2 ^ 64 - 1, 10, 1000, 1000⟩

def eLate : ExtEnv := ⟨432000, 10, 0, 0⟩

def sHeld : ContractState := (create_payment sInit eStd 1 2 1000 3 20 5).2.1

def txnHeld : Transaction := ⟨1, 2, 1000, 3, 20, 200, 800, 432000, .Held⟩

def sDisputed : ContractState := (initiate_dispute sHeld 1 1).2.1

def txnDisputed : Transaction :=
  ⟨1, 2, 1000, 3, 20, 200, 800, 432000, .Disputed⟩

def sCompleted : ContractState := (approve_release sHeld eStd 1 1).2.1

def txnCompleted : Transaction :=
  ⟨1, 2, 1000, 3, 20, 200, 800, 432000, .Completed⟩

/-! Helper lemmas about the storage model. -/

theorem getTx_setTx (s : ContractState) (id : Nat) (t : Transaction) (j : Nat) :
    getTx (setTx s id t) j = if j = id then some t else getTx s j := by
  simp [getTx, setTx]

theorem getTx_setTx_self (s : ContractState) (id : Nat) (t : Transaction) :
    getTx (setTx s id t) id = some t := by
  simp [getTx_setTx]

theorem setTx_txCounter (s : ContractState) (id : Nat) (t : Transaction) :
    (setTx s id t).txCounter = s.txCounter := rfl

theorem setTx_admin (s : ContractState) (id : Nat) (t : Transaction) :
    (setTx s id t).admin = s.admin := rfl

theorem checkedSub_some (a b c : Nat) (h : checkedSub a b = some c) :
    b ≤ a ∧ c = a - b := by
  unfold checkedSub at h
  split at h <;> simp_all

theorem checkedAddU128_some (a b c : Nat) (h : checkedAddU128 a b = some c) :
    c = a + b := by
  unfold checkedAddU128 at h
  split at h <;> simp_all

theorem checkedAddU64_some (a b c : Nat) (h : checkedAddU64 a b = some c) :
    c = a + b := by
  unfold checkedAddU64 at h
  split at h <;> simp_all

/-- The observation wrapper keeps the pre-call storage and reports no
transfers whenever the raw call body ends in an error. -/
theorem observe_err {α : Type} (s : ContractState) (r : CallOut α)
    (er : Error) (h : r.1 = .err er) :
    (observe s r).2.1 = s ∧ (observe s r).2.2 = [] := by
  obtain ⟨r1, s1, tr⟩ := r
  cases r1 <;> simp_all [observe]

set_option maxRecDepth 10000 in
/-- C2: the upper amount check of create_payment is dead code.  The source
guards with `amount as i128 > i128::MAX`, but the cast value of a u128 is
always at most i128::MAX (large amounts wrap to negative), so the guard
can never fire: for every u128 amount the second disjunct of the
InvalidAmount test is false, and concretely the call accepts
amount = 2^128 - 1, far above the 2^127 - 1 cap the claim states, instead
of rejecting it with InvalidAmount. -/
theorem amount_cap_check_unreachable :
    (∀ amount : Nat, amount < U128_MOD → ¬ I128_MAX < toI128 amount) ∧
    (2 ^ 127 - 1 : Nat) < 2 ^ 128 - 1 ∧
    (create_payment sInit eStd 1 2 (2 ^ 128 - 1) 3 1 0).1 = .ok 1 := by
  refine ⟨?_, by norm_num, by decide⟩
  intro a ha
  unfold U128_MOD at ha
  unfold toI128 I128_MAX
  split
  · rename_i h
    have h1 : (a : Int) < 2 ^ 127 := by exact_mod_cast h
    omega
  · have h1 : (a : Int) < 2 ^ 128 := by exact_mod_cast ha
    omega

/-- C2 witness: the dead guard does not fire even at the largest u128. -/
theorem amount_cap_check_unreachable_witness :
    ¬ I128_MAX < toI128 (2 ^ 128 - 1) :=
  amount_cap_check_unreachable.1 (2 ^ 128 - 1) (by decide)

set_option maxRecDepth 10000 in
/-- C3 counterexample: amount = 2^127 - 1 and holdback_rate = 100 pass
every validation check of create_payment (amount nonzero and at most
2^127 - 1, rate in [1, 100]), yet the intermediate product
amount * holdback_rate does not fit in an unsigned 128-bit integer, and
the call hits the overflow trap. -/
theorem holdback_product_overflow_cex :
    (2 ^ 127 - 1 : Nat) ≠ 0 ∧ (1 : Nat) ≤ 100 ∧
    ¬ (2 ^ 127 - 1 : Nat) * 100 < U128_MOD ∧
    (create_payment sInit eRich 1 2 (2 ^ 127 - 1) 3 100 0).1 = .trap := by
  refine ⟨by norm_num, by norm_num, by decide, by decide⟩

/-- C3 amended: the product amount * holdback_rate fits in an unsigned
128-bit integer for every holdback_rate the validation admits provided
amount ≤ floor((2^128 - 1) / 100); under that bound create_payment never
hits the overflow trap.  The bound amount ≤ 2^127 - 1 claimed originally
is not sufficient. -/
theorem create_payment_no_trap_for_bounded_amount (s : ContractState)
    (e : ExtEnv) (buyer seller token : Address)
    (amount holdback_rate holdback_days : Nat)
    (ha : amount ≤ (U128_MOD - 1) / 100) :
    (create_payment s e buyer seller amount token holdback_rate
      holdback_days).1 ≠ .trap := by
  unfold create_payment
  cases s.admin with
  | none => simp
  | some admin =>
    simp only
    split
    · simp
    split
    · simp
    rename_i hrate
    split
    · simp
    split
    · simp
    split
    · rename_i hmul
      exfalso
      push_neg at hrate
      have h100 : holdback_rate ≤ 100 := hrate.2
      have hle : amount * holdback_rate ≤ U128_MOD - 1 :=
        le_trans (Nat.mul_le_mul ha h100) (Nat.div_mul_le_self _ _)
      have hpos : 0 < U128_MOD := by unfold U128_MOD; positivity
      omega
    · repeat' split
      all_goals simp

/-- C3 amended witness: a creation of 1000 units at rate 20 is below the
bound and does not trap. -/
theorem create_payment_no_trap_for_bounded_amount_witness :
    (create_payment sInit eStd 1 2 1000 3 20 5).1 ≠ .trap :=
  create_payment_no_trap_for_bounded_amount sInit eStd 1 2 3 1000 20 5
    (by decide)

/-- C1: whenever a public operation returns an error, the storage the
caller observes after the call (admin entry, transaction counter, every
transaction record) is exactly the pre-call storage and no transfer is
committed; in particular a create_payment that fails after validation
(such as the release_time checked addition) leaves the counter unchanged
and stores no transaction. -/
theorem error_calls_preserve_storage :
    (∀ s a er, (initializeContract s a).1 = .err er →
      (observe s (initializeContract s a)).2.1 = s ∧
      (observe s (initializeContract s a)).2.2 = []) ∧
    (∀ s e b sl am tk hr hd er,
      (create_payment s e b sl am tk hr hd).1 = .err er →
      (observe s (create_payment s e b sl am tk hr hd)).2.1 = s ∧
      (observe s (create_payment s e b sl am tk hr hd)).2.2 = []) ∧
    (∀ s e id b er, (approve_release s e id b).1 = .err er →
      (observe s (approve_release s e id b)).2.1 = s ∧
      (observe s (approve_release s e id b)).2.2 = []) ∧
    (∀ s id b er, (initiate_dispute s id b).1 = .err er →
      (observe s (initiate_dispute s id b)).2.1 = s ∧
      (observe s (initiate_dispute s id b)).2.2 = []) ∧
    (∀ s e id r a er, (resolve_dispute s e id r a).1 = .err er →
      (observe s (resolve_dispute s e id r a)).2.1 = s ∧
      (observe s (resolve_dispute s e id r a)).2.2 = []) ∧
    (∀ s e id er, (check_and_release s e id).1 = .err er →
      (observe s (check_and_release s e id)).2.1 = s ∧
      (observe s (check_and_release s e id)).2.2 = []) := by
  refine ⟨?_, ?_, ?_, ?_, ?_, ?_⟩
  · exact fun s a er h => observe_err s _ er h
  · exact fun s e b sl am tk hr hd er h => observe_err s _ er h
  · exact fun s e id b er h => observe_err s _ er h
  · exact fun s id b er h => observe_err s _ er h
  · exact fun s e id r a er h => observe_err s _ er h
  · exact fun s e id er h => observe_err s _ er h

set_option maxRecDepth 10000 in
/-- C1 witness: at timestamp 2^64 - 1 the release_time addition of
create_payment overflows after the raw body has already bumped the
counter; the observed call reports the error with the counter entry still
absent, no stored transaction and no transfers. -/
theorem error_calls_preserve_storage_witness :
    (create_payment sInit eMaxTime 1 2 1000 3 20 5).1 =
      .err .InvalidAmount ∧
    (create_payment sInit eMaxTime 1 2 1000 3 20 5).2.1.txCounter = some 1 ∧
    (observe sInit (create_payment sInit eMaxTime 1 2 1000 3 20 5)).2.1 =
      sInit ∧
    (observe sInit (create_payment sInit eMaxTime 1 2 1000 3 20 5)).2.2 = [] := by
  refine ⟨by decide, by decide, ?_, ?_⟩
  · exact (error_calls_preserve_storage.2.1 sInit eMaxTime 1 2 1000 3 20 5
      .InvalidAmount (by decide)).1
  · exact (error_calls_preserve_storage.2.1 sInit eMaxTime 1 2 1000 3 20 5
      .InvalidAmount (by decide)).2

/-- C4: every accepted creation stores a transaction whose holdback is
the exact floor of amount * holdback_rate / 100, whose final amount is
the difference, and whose two parts add back to the amount. -/
theorem create_payment_holdback_arithmetic (s : ContractState) (e : ExtEnv)
    (buyer seller token : Address) (amount holdback_rate holdback_days id : Nat)
    (h : (create_payment s e buyer seller amount token holdback_rate
      holdback_days).1 = .ok id) :
    ∃ txn, getTx (create_payment s e buyer seller amount token holdback_rate
        holdback_days).2.1 id = some txn ∧
      txn.amount = amount ∧ txn.holdback_rate = holdback_rate ∧
      txn.holdback_amount = amount * holdback_rate / 100 ∧
      txn.final_amount = amount - amount * holdback_rate / 100 ∧
      txn.holdback_amount + txn.final_amount = amount := by
  revert h
  unfold create_payment
  repeat' split
  all_goals intro h
  all_goals simp at h
  rename_i oSub fin hsub hBal hAllow oCtr tid hctr oRel rel hrel
  subst h
  obtain ⟨hle, hfin⟩ := checkedSub_some _ _ _ hsub
  subst hfin
  refine ⟨_, getTx_setTx_self _ _ _, rfl, rfl, rfl, rfl, ?_⟩
  show amount * holdback_rate / 100 +
    (amount - amount * holdback_rate / 100) = amount
  omega

set_option maxRecDepth 10000 in
/-- C4 witness: the creation of 1000 units at rate 20 stores holdback
200, final 800, and 200 + 800 = 1000. -/
theorem create_payment_holdback_arithmetic_witness :
    ∃ txn, getTx (create_payment sInit eStd 1 2 1000 3 20 5).2.1 1 =
        some txn ∧
      txn.amount = 1000 ∧ txn.holdback_rate = 20 ∧
      txn.holdback_amount = 1000 * 20 / 100 ∧
      txn.final_amount = 1000 - 1000 * 20 / 100 ∧
      txn.holdback_amount + txn.final_amount = 1000 :=
  create_payment_holdback_arithmetic sInit eStd 1 2 3 1000 20 5 1 (by decide)

/-! Equation lemmas: each operation, rewritten by the stored record the
call loads (or its absence). -/

theorem release_eq (s : ContractState) (e : ExtEnv) (id : Nat)
    (txn : Transaction) (hget : getTx s id = some txn) :
    release_holdback_if_due s e id =
      if txn.status = .HoldbackPending ∨
          (txn.status = .Held ∧ txn.release_time ≤ e.now) then
        (.ok (), setTx s id { txn with status := .Completed },
          [⟨e.contractAddr, txn.seller, toI128 txn.holdback_amount⟩])
      else (.ok (), s, []) := by
  unfold release_holdback_if_due
  rw [hget]

theorem approve_eq (s : ContractState) (e : ExtEnv) (id : Nat) (b : Address)
    (txn : Transaction) (hget : getTx s id = some txn) :
    approve_release s e id b =
      if txn.buyer ≠ b then (.err .Unauthorized, s, [])
      else if txn.status ≠ .Held then (.err .InvalidStatus, s, [])
      else release_holdback_if_due
        (setTx s id { txn with status := .HoldbackPending }) e id := by
  unfold approve_release
  rw [hget]

theorem initiate_eq (s : ContractState) (id : Nat) (b : Address)
    (txn : Transaction) (hget : getTx s id = some txn) :
    initiate_dispute s id b =
      if txn.buyer ≠ b then (.err .Unauthorized, s, [])
      else if txn.status ≠ .Held ∧ txn.status ≠ .HoldbackPending then
        (.err .InvalidStatus, s, [])
      else (.ok (), setTx s id { txn with status := .Disputed }, []) := by
  unfold initiate_dispute
  rw [hget]

theorem resolve_eq (s : ContractState) (e : ExtEnv) (id : Nat)
    (refund : Bool) (a stored : Address) (txn : Transaction)
    (hadmin : s.admin = some stored) (hget : getTx s id = some txn) :
    resolve_dispute s e id refund a =
      if a ≠ stored then (.err .Unauthorized, s, [])
      else if txn.status ≠ .Disputed then (.err .InvalidStatus, s, [])
      else if refund then
        (.ok (), setTx s id { txn with status := .Cancelled },
          [⟨e.contractAddr, txn.buyer, toI128 txn.holdback_amount⟩])
      else
        (.ok (), setTx s id { txn with status := .Completed },
          [⟨e.contractAddr, txn.seller, toI128 txn.holdback_amount⟩]) := by
  unfold resolve_dispute
  rw [hadmin, hget]

theorem check_eq (s : ContractState) (e : ExtEnv) (id : Nat)
    (txn : Transaction) (hget : getTx s id = some txn) :
    check_and_release s e id =
      if txn.status = .Disputed then (.err .InvalidStatus, s, [])
      else release_holdback_if_due s e id := by
  unfold check_and_release
  rw [hget]

theorem release_eq_notfound (s : ContractState) (e : ExtEnv) (id : Nat)
    (hget : getTx s id = none) :
    release_holdback_if_due s e id = (.err .TransactionNotFound, s, []) := by
  unfold release_holdback_if_due
  rw [hget]

theorem approve_eq_notfound (s : ContractState) (e : ExtEnv) (id : Nat)
    (b : Address) (hget : getTx s id = none) :
    approve_release s e id b = (.err .TransactionNotFound, s, []) := by
  unfold approve_release
  rw [hget]

theorem initiate_eq_notfound (s : ContractState) (id : Nat) (b : Address)
    (hget : getTx s id = none) :
    initiate_dispute s id b = (.err .TransactionNotFound, s, []) := by
  unfold initiate_dispute
  rw [hget]

theorem check_eq_notfound (s : ContractState) (e : ExtEnv) (id : Nat)
    (hget : getTx s id = none) :
    check_and_release s e id = (.err .TransactionNotFound, s, []) := by
  unfold check_and_release
  rw [hget]

theorem resolve_eq_notfound (s : ContractState) (e : ExtEnv) (id : Nat)
    (refund : Bool) (a stored : Address) (hadmin : s.admin = some stored)
    (hget : getTx s id = none) :
    resolve_dispute s e id refund a =
      if a ≠ stored then (.err .Unauthorized, s, [])
      else (.err .TransactionNotFound, s, []) := by
  unfold resolve_dispute
  rw [hadmin, hget]

theorem resolve_eq_uninit (s : ContractState) (e : ExtEnv) (id : Nat)
    (refund : Bool) (a : Address) (hadmin : s.admin = none) :
    resolve_dispute s e id refund a = (.err .NotInitialized, s, []) := by
  unfold resolve_dispute
  rw [hadmin]

theorem resolve_eq_unauth (s : ContractState) (e : ExtEnv) (id : Nat)
    (refund : Bool) (a stored : Address)
    (hadmin : s.admin = some stored) (hc : a ≠ stored) :
    resolve_dispute s e id refund a = (.err .Unauthorized, s, []) := by
  unfold resolve_dispute
  rw [hadmin]
  exact if_pos hc

/-! The four transaction operations and initialize never touch the
TransactionCounter entry. -/

theorem approve_counter (s : ContractState) (e : ExtEnv) (id : Nat)
    (b : Address) : (approve_release s e id b).2.1.txCounter = s.txCounter := by
  unfold approve_release release_holdback_if_due
  repeat' split
  all_goals rfl

theorem initiate_counter (s : ContractState) (id : Nat) (b : Address) :
    (initiate_dispute s id b).2.1.txCounter = s.txCounter := by
  unfold initiate_dispute
  repeat' split
  all_goals rfl

theorem resolve_counter (s : ContractState) (e : ExtEnv) (id : Nat)
    (r : Bool) (a : Address) :
    (resolve_dispute s e id r a).2.1.txCounter = s.txCounter := by
  unfold resolve_dispute
  repeat' split
  all_goals rfl

theorem check_counter (s : ContractState) (e : ExtEnv) (id : Nat) :
    (check_and_release s e id).2.1.txCounter = s.txCounter := by
  unfold check_and_release release_holdback_if_due
  repeat' split
  all_goals rfl

theorem init_counter (s : ContractState) (a : Address) :
    (initializeContract s a).2.1.txCounter = s.txCounter := by
  unfold initializeContract
  split
  all_goals rfl

theorem idsBounded_setTx (s : ContractState) (id : Nat) (t : Transaction)
    (hb : idsBounded s) (hex : (s.transactions id).isSome) :
    idsBounded (setTx s id t) := by
  intro j hj
  show j ≤ s.txCounter.getD 0
  by_cases hji : j = id
  · subst hji
    exact hb _ hex
  · apply hb
    simpa [setTx, hji] using hj

theorem getTx_isSome (s : ContractState) (id : Nat) (txn : Transaction)
    (hget : getTx s id = some txn) : (s.transactions id).isSome := by
  unfold getTx at hget
  simp [hget]

/-- Full characterization of a successful create_payment: the returned id
is the stored counter plus one and the call writes exactly the new counter
and the new transaction record. -/
theorem create_payment_ok_spec (s : ContractState) (e : ExtEnv)
    (b sl tk : Address) (am hr hd id : Nat)
    (h : (create_payment s e b sl am tk hr hd).1 = .ok id) :
    id = s.txCounter.getD 0 + 1 ∧
    ∃ fin rel, checkedSub am (am * hr / 100) = some fin ∧
      checkedAddU64 e.now (satMulU64 hd DAY_IN_SECONDS) = some rel ∧
      create_payment s e b sl am tk hr hd =
        (.ok id, setTx { s with txCounter := some id } id
          ⟨b, sl, am, tk, hr, am * hr / 100, fin, rel, .Held⟩,
          createTransfers e b sl am fin) := by
  revert h
  unfold create_payment
  repeat' split
  all_goals intro h
  all_goals simp at h
  rename_i oSub fin hsub hBal hAllow oCtr tid hctr oRel rel hrel
  have hc := checkedAddU128_some _ _ _ hctr
  subst h
  exact ⟨hc, fin, rel, hsub, hrel, rfl⟩

/-- C5: on an existing Held transaction, approve_release by the stored
buyer succeeds, transfers the holdback amount to the seller within the
same call whatever the current time is, leaves the record Completed, and
a second approve_release on the same transaction fails with
InvalidStatus. -/
theorem approve_release_instant_release (s : ContractState) (e e2 : ExtEnv)
    (id : Nat) (txn : Transaction) (hget : getTx s id = some txn)
    (hstatus : txn.status = .Held) :
    (approve_release s e id txn.buyer).1 = .ok () ∧
    (approve_release s e id txn.buyer).2.2 =
      [⟨e.contractAddr, txn.seller, toI128 txn.holdback_amount⟩] ∧
    getTx (approve_release s e id txn.buyer).2.1 id =
      some { txn with status := .Completed } ∧
    (approve_release (approve_release s e id txn.buyer).2.1 e2 id
      txn.buyer).1 = .err .InvalidStatus := by
  have h1 : approve_release s e id txn.buyer =
      release_holdback_if_due
        (setTx s id { txn with status := .HoldbackPending }) e id := by
    rw [approve_eq s e id txn.buyer txn hget]
    rw [if_neg (by simp), if_neg (by simp [hstatus])]
  have h2 : release_holdback_if_due
      (setTx s id { txn with status := .HoldbackPending }) e id =
      (.ok (), setTx (setTx s id { txn with status := .HoldbackPending }) id
        { txn with status := .Completed },
       [⟨e.contractAddr, txn.seller, toI128 txn.holdback_amount⟩]) := by
    rw [release_eq _ e id { txn with status := .HoldbackPending }
      (getTx_setTx_self _ _ _)]
    rw [if_pos (by simp)]
  rw [h1, h2]
  refine ⟨rfl, rfl, getTx_setTx_self _ _ _, ?_⟩
  rw [approve_eq _ e2 id txn.buyer { txn with status := .Completed }
    (getTx_setTx_self _ _ _)]
  rw [if_neg (by simp), if_pos (by simp)]

set_option maxRecDepth 10000 in
/-- C5 witness: the concrete Held transaction of the scenario. -/
theorem approve_release_instant_release_witness :
    (approve_release sHeld eStd 1 txnHeld.buyer).1 = .ok () ∧
    (approve_release sHeld eStd 1 txnHeld.buyer).2.2 =
      [⟨eStd.contractAddr, txnHeld.seller, toI128 txnHeld.holdback_amount⟩] ∧
    getTx (approve_release sHeld eStd 1 txnHeld.buyer).2.1 1 =
      some { txnHeld with status := .Completed } ∧
    (approve_release (approve_release sHeld eStd 1 txnHeld.buyer).2.1 eStd 1
      txnHeld.buyer).1 = .err .InvalidStatus :=
  approve_release_instant_release sHeld eStd eStd 1 txnHeld (by decide)
    (by decide)

/-- C6: on an existing transaction, release_holdback_if_due transfers the
holdback amount to the seller and completes the record exactly when the
status is HoldbackPending, or the status is Held and the release time has
been reached; in every other case the call is a success that keeps the
storage and moves no funds. -/
theorem release_iff_due (s : ContractState) (e : ExtEnv) (id : Nat)
    (txn : Transaction) (hget : getTx s id = some txn) :
    (((release_holdback_if_due s e id).1 = .ok () ∧
      (release_holdback_if_due s e id).2.2 =
        [⟨e.contractAddr, txn.seller, toI128 txn.holdback_amount⟩] ∧
      getTx (release_holdback_if_due s e id).2.1 id =
        some { txn with status := .Completed }) ↔
      (txn.status = .HoldbackPending ∨
        (txn.status = .Held ∧ txn.release_time ≤ e.now))) ∧
    (¬(txn.status = .HoldbackPending ∨
        (txn.status = .Held ∧ txn.release_time ≤ e.now)) →
      release_holdback_if_due s e id = (.ok (), s, [])) := by
  rw [release_eq s e id txn hget]
  by_cases hc : txn.status = .HoldbackPending ∨
      (txn.status = .Held ∧ txn.release_time ≤ e.now)
  · rw [if_pos hc]
    exact ⟨⟨fun _ => hc, fun _ => ⟨rfl, rfl, getTx_setTx_self _ _ _⟩⟩,
      fun hn => absurd hc hn⟩
  · rw [if_neg hc]
    exact ⟨⟨fun h => absurd h.2.1 (by simp), fun h => absurd h hc⟩,
      fun _ => rfl⟩

set_option maxRecDepth 10000 in
/-- C6 witness: the scenario transaction at its release time. -/
theorem release_iff_due_witness :
    (((release_holdback_if_due sHeld eLate 1).1 = .ok () ∧
      (release_holdback_if_due sHeld eLate 1).2.2 =
        [⟨eLate.contractAddr, txnHeld.seller,
          toI128 txnHeld.holdback_amount⟩] ∧
      getTx (release_holdback_if_due sHeld eLate 1).2.1 1 =
        some { txnHeld with status := .Completed }) ↔
      (txnHeld.status = .HoldbackPending ∨
        (txnHeld.status = .Held ∧ txnHeld.release_time ≤ eLate.now))) ∧
    (¬(txnHeld.status = .HoldbackPending ∨
        (txnHeld.status = .Held ∧ txnHeld.release_time ≤ eLate.now)) →
      release_holdback_if_due sHeld eLate 1 = (.ok (), sHeld, [])) :=
  release_iff_due sHeld eLate 1 txnHeld (by decide)

/-- C7: a Disputed transaction is frozen for every path but
resolve_dispute: check_and_release fails with InvalidStatus leaving the
storage and moving nothing, approve_release and initiate_dispute by any
caller keep the storage untouched, and neither create_payment (whose new
id lies above the counter) nor initialize changes the record. -/
theorem disputed_never_auto_released (s : ContractState) (e : ExtEnv)
    (id : Nat) (txn : Transaction) (hget : getTx s id = some txn)
    (hd : txn.status = .Disputed) :
    check_and_release s e id = (.err .InvalidStatus, s, []) ∧
    (∀ b, (approve_release s e id b).2 = (s, [])) ∧
    (∀ b, (initiate_dispute s id b).2 = (s, [])) ∧
    (∀ e2 b sl am tk hr hd2, id ≤ s.txCounter.getD 0 →
      getTx (create_payment s e2 b sl am tk hr hd2).2.1 id = some txn) ∧
    (∀ a, getTx (initializeContract s a).2.1 id = some txn) := by
  refine ⟨?_, ?_, ?_, ?_, ?_⟩
  · rw [check_eq s e id txn hget, if_pos hd]
  · intro b
    rw [approve_eq s e id b txn hget]
    by_cases hb : txn.buyer ≠ b
    · rw [if_pos hb]
    · rw [if_neg hb, if_pos (by simp [hd])]
  · intro b
    rw [initiate_eq s id b txn hget]
    by_cases hb : txn.buyer ≠ b
    · rw [if_pos hb]
    · rw [if_neg hb, if_pos (by simp [hd])]
  · intro e2 b sl am tk hr hd2 hle
    unfold create_payment
    repeat' split
    all_goals try exact hget
    rename_i oSub fin hsub hBal hAllow oCtr tid hctr oRel rel hrel
    have hc := checkedAddU128_some _ _ _ hctr
    rw [getTx_setTx, if_neg (by omega)]
    exact hget
  · intro a
    unfold initializeContract
    split
    all_goals exact hget

set_option maxRecDepth 10000 in
/-- C7 witness: the concrete Disputed transaction after its release
time. -/
theorem disputed_never_auto_released_witness :
    check_and_release sDisputed eLate 1 =
      (.err .InvalidStatus, sDisputed, []) ∧
    (approve_release sDisputed eLate 1 1).2 = (sDisputed, []) ∧
    (initiate_dispute sDisputed 1 1).2 = (sDisputed, []) ∧
    getTx (initializeContract sDisputed 4).2.1 1 = some txnDisputed := by
  have h := disputed_never_auto_released sDisputed eLate 1 txnDisputed
    (by decide) (by decide)
  exact ⟨h.1, h.2.1 1, h.2.2.1 1, h.2.2.2.2 4⟩

/-- C8: resolve_dispute rejects any caller other than the stored admin
with Unauthorized, rejects a non-Disputed transaction with InvalidStatus,
and on a Disputed transaction refunds the holdback to the buyer setting
Cancelled when refund is true, or pays it to the seller setting Completed
when refund is false. -/
theorem resolve_dispute_behavior (s : ContractState) (e : ExtEnv) (id : Nat)
    (stored : Address) (hadmin : s.admin = some stored) :
    (∀ caller refund, caller ≠ stored →
      resolve_dispute s e id refund caller = (.err .Unauthorized, s, [])) ∧
    (∀ txn refund, getTx s id = some txn → txn.status ≠ .Disputed →
      resolve_dispute s e id refund stored = (.err .InvalidStatus, s, [])) ∧
    (∀ txn, getTx s id = some txn → txn.status = .Disputed →
      resolve_dispute s e id true stored =
        (.ok (), setTx s id { txn with status := .Cancelled },
          [⟨e.contractAddr, txn.buyer, toI128 txn.holdback_amount⟩]) ∧
      resolve_dispute s e id false stored =
        (.ok (), setTx s id { txn with status := .Completed },
          [⟨e.contractAddr, txn.seller, toI128 txn.holdback_amount⟩])) := by
  refine ⟨?_, ?_, ?_⟩
  · intro caller refund hc
    exact resolve_eq_unauth s e id refund caller stored hadmin hc
  · intro txn refund hget hnd
    rw [resolve_eq s e id refund stored stored txn hadmin hget]
    rw [if_neg (by simp), if_pos hnd]
  · intro txn hget hdis
    constructor
    · rw [resolve_eq s e id true stored stored txn hadmin hget]
      rw [if_neg (by simp), if_neg (by simp [hdis]), if_pos rfl]
    · rw [resolve_eq s e id false stored stored txn hadmin hget]
      rw [if_neg (by simp), if_neg (by simp [hdis])]
      simp

set_option maxRecDepth 10000 in
/-- C8 witness: the concrete Disputed transaction, resolved by a
non-admin, by the admin with refund, and by the admin without refund. -/
theorem resolve_dispute_behavior_witness :
    resolve_dispute sDisputed eStd 1 true 7 =
      (.err .Unauthorized, sDisputed, []) ∧
    resolve_dispute sDisputed eStd 1 true 9 =
      (.ok (), setTx sDisputed 1 { txnDisputed with status := .Cancelled },
        [⟨eStd.contractAddr, txnDisputed.buyer,
          toI128 txnDisputed.holdback_amount⟩]) ∧
    resolve_dispute sDisputed eStd 1 false 9 =
      (.ok (), setTx sDisputed 1 { txnDisputed with status := .Completed },
        [⟨eStd.contractAddr, txnDisputed.seller,
          toI128 txnDisputed.holdback_amount⟩]) := by
  have h := resolve_dispute_behavior sDisputed eStd 1 9 (by decide)
  exact ⟨h.1 7 true (by decide),
    (h.2.2 txnDisputed (by decide) (by decide)).1,
    (h.2.2 txnDisputed (by decide) (by decide)).2⟩

/-- C9: a Completed or Cancelled transaction is terminal: approve_release,
initiate_dispute and resolve_dispute keep the storage untouched and move
no funds, check_and_release is a pure success no-op, and any number of
repeated check_and_release calls moves nothing. -/
theorem terminal_states_frozen (s : ContractState) (e : ExtEnv) (id : Nat)
    (txn : Transaction) (hget : getTx s id = some txn)
    (hterm : txn.status = .Completed ∨ txn.status = .Cancelled) :
    (∀ b, (approve_release s e id b).2 = (s, [])) ∧
    (∀ b, (initiate_dispute s id b).2 = (s, [])) ∧
    (∀ a refund, (resolve_dispute s e id refund a).2 = (s, [])) ∧
    check_and_release s e id = (.ok (), s, []) ∧
    (∀ n, iterate_check e id n s = (s, [])) := by
  have hnotHeld : txn.status ≠ .Held := by
    rcases hterm with h | h <;> simp [h]
  have hnotPend : txn.status ≠ .HoldbackPending := by
    rcases hterm with h | h <;> simp [h]
  have hnotDisp : txn.status ≠ .Disputed := by
    rcases hterm with h | h <;> simp [h]
  have hcheck : check_and_release s e id = (.ok (), s, []) := by
    rw [check_eq s e id txn hget, if_neg hnotDisp,
      release_eq s e id txn hget, if_neg (by simp [hnotHeld, hnotPend])]
  refine ⟨?_, ?_, ?_, hcheck, ?_⟩
  · intro b
    rw [approve_eq s e id b txn hget]
    by_cases hb : txn.buyer ≠ b
    · rw [if_pos hb]
    · rw [if_neg hb, if_pos hnotHeld]
  · intro b
    rw [initiate_eq s id b txn hget]
    by_cases hb : txn.buyer ≠ b
    · rw [if_pos hb]
    · rw [if_neg hb, if_pos ⟨hnotHeld, hnotPend⟩]
  · intro a refund
    cases hs : s.admin with
    | none =>
      rw [resolve_eq_uninit s e id refund a hs]
    | some stored =>
      by_cases ha : a ≠ stored
      · rw [resolve_eq_unauth s e id refund a stored hs ha]
      · rw [resolve_eq s e id refund a stored txn hs hget,
          if_neg ha, if_pos hnotDisp]
  · intro n
    induction n with
    | zero => rfl
    | succ n ih =>
      show ((iterate_check e id n (check_and_release s e id).2.1).1,
        (check_and_release s e id).2.2 ++
          (iterate_check e id n (check_and_release s e id).2.1).2) = (s, [])
      rw [hcheck]
      simp [ih]

set_option maxRecDepth 10000 in
/-- C9 witness: five repeated check_and_release calls on the concrete
Completed transaction change nothing and move nothing. -/
theorem terminal_states_frozen_witness :
    (approve_release sCompleted eLate 1 1).2 = (sCompleted, []) ∧
    (resolve_dispute sCompleted eLate 1 true 9).2 = (sCompleted, []) ∧
    check_and_release sCompleted eLate 1 = (.ok (), sCompleted, []) ∧
    iterate_check eLate 1 5 sCompleted = (sCompleted, []) := by
  have h := terminal_states_frozen sCompleted eLate 1 txnCompleted
    (by decide) (by decide)
  exact ⟨h.1 1, h.2.2.1 9 true, h.2.2.2.1, h.2.2.2.2 5⟩

/-- C10: transaction ids are sequential from 1: a successful creation
returns the stored counter plus one (1 on the first), stores exactly that
counter, no operation ever lowers the counter, and in any state whose
stored ids are bounded by the counter a successful creation writes to a
fresh id and re-establishes the bound, which every other operation also
preserves - so an assigned id is never reused for a different
transaction. -/
theorem sequential_transaction_ids :
    (∀ s e b sl am tk hr hd id, s.txCounter = none →
      (create_payment s e b sl am tk hr hd).1 = .ok id → id = 1) ∧
    (∀ s e b sl am tk hr hd id,
      (create_payment s e b sl am tk hr hd).1 = .ok id →
      id = s.txCounter.getD 0 + 1 ∧
      (create_payment s e b sl am tk hr hd).2.1.txCounter = some id) ∧
    (∀ s e b sl am tk hr hd, s.txCounter.getD 0 ≤
      (create_payment s e b sl am tk hr hd).2.1.txCounter.getD 0) ∧
    (∀ s a, (initializeContract s a).2.1.txCounter = s.txCounter) ∧
    (∀ s e id b, (approve_release s e id b).2.1.txCounter = s.txCounter) ∧
    (∀ s id b, (initiate_dispute s id b).2.1.txCounter = s.txCounter) ∧
    (∀ s e id r a,
      (resolve_dispute s e id r a).2.1.txCounter = s.txCounter) ∧
    (∀ s e id, (check_and_release s e id).2.1.txCounter = s.txCounter) ∧
    (∀ s e b sl am tk hr hd id, idsBounded s →
      (create_payment s e b sl am tk hr hd).1 = .ok id →
      getTx s id = none ∧
      getTx (create_payment s e b sl am tk hr hd).2.1 id ≠ none ∧
      idsBounded (create_payment s e b sl am tk hr hd).2.1) ∧
    (∀ s e id b, idsBounded s → idsBounded (approve_release s e id b).2.1) ∧
    (∀ s id b, idsBounded s → idsBounded (initiate_dispute s id b).2.1) ∧
    (∀ s e id r a, idsBounded s →
      idsBounded (resolve_dispute s e id r a).2.1) ∧
    (∀ s e id, idsBounded s → idsBounded (check_and_release s e id).2.1) := by
  have hfresh : ∀ s e b sl am tk hr hd id, idsBounded s →
      (create_payment s e b sl am tk hr hd).1 = .ok id →
      getTx s id = none ∧
      getTx (create_payment s e b sl am tk hr hd).2.1 id ≠ none ∧
      idsBounded (create_payment s e b sl am tk hr hd).2.1 := by
    intro s e b sl am tk hr hd id hbnd h
    obtain ⟨hid, fin, rel, hsub, hrel, heq⟩ :=
      create_payment_ok_spec s e b sl tk am hr hd id h
    refine ⟨?_, ?_, ?_⟩
    · by_contra hne
      have hs : (s.transactions id).isSome := by
        unfold getTx at hne
        cases hx : s.transactions id
        · exact absurd hx hne
        · simp [hx]
      have := hbnd id hs
      omega
    · rw [heq]
      show getTx (setTx _ id _) id ≠ none
      rw [getTx_setTx_self]
      simp
    · rw [heq]
      intro j hj
      show j ≤ (setTx { s with txCounter := some id } id _).txCounter.getD 0
      have hcnt : (setTx { s with txCounter := some id } id
          (⟨b, sl, am, tk, hr, am * hr / 100, fin, rel, .Held⟩ :
            Transaction)).txCounter = some id := rfl
      rw [hcnt]
      simp only [Option.getD_some]
      by_cases hji : j = id
      · omega
      · have hjs : (s.transactions j).isSome := by
          simpa [setTx, hji] using hj
        have := hbnd j hjs
        omega
  have hrelease : ∀ s e id, idsBounded s →
      idsBounded (release_holdback_if_due s e id).2.1 := by
    intro s e id hbnd
    cases hx : getTx s id with
    | none =>
      rw [release_eq_notfound s e id hx]
      exact hbnd
    | some txn =>
      rw [release_eq s e id txn hx]
      split
      · exact idsBounded_setTx s id _ hbnd (getTx_isSome s id txn hx)
      · exact hbnd
  refine ⟨?_, ?_, ?_, init_counter, approve_counter, initiate_counter,
    resolve_counter, check_counter, hfresh, ?_, ?_, ?_, ?_⟩
  · intro s e b sl am tk hr hd id hnone h
    have := (create_payment_ok_spec s e b sl tk am hr hd id h).1
    rw [hnone] at this
    simpa using this
  · intro s e b sl am tk hr hd id h
    obtain ⟨hid, fin, rel, hsub, hrel, heq⟩ :=
      create_payment_ok_spec s e b sl tk am hr hd id h
    refine ⟨hid, ?_⟩
    rw [heq]
    rfl
  · intro s e b sl am tk hr hd
    unfold create_payment
    repeat' split
    all_goals try exact le_refl _
    · rename_i oSub fin hsub hBal hAllow oCtr tid hctr oRel hr0
      have := checkedAddU128_some _ _ _ hctr
      show s.txCounter.getD 0 ≤ (some tid).getD 0
      simp only [Option.getD_some]
      omega
    · rename_i oSub fin hsub hBal hAllow oCtr tid hctr oRel rel hrel
      have := checkedAddU128_some _ _ _ hctr
      show s.txCounter.getD 0 ≤ (some tid).getD 0
      simp only [Option.getD_some]
      omega
  · intro s e id b hbnd
    cases hx : getTx s id with
    | none =>
      rw [approve_eq_notfound s e id b hx]
      exact hbnd
    | some txn =>
      rw [approve_eq s e id b txn hx]
      split
      · exact hbnd
      split
      · exact hbnd
      · exact hrelease _ e id
          (idsBounded_setTx s id _ hbnd (getTx_isSome s id txn hx))
  · intro s id b hbnd
    cases hx : getTx s id with
    | none =>
      rw [initiate_eq_notfound s id b hx]
      exact hbnd
    | some txn =>
      rw [initiate_eq s id b txn hx]
      split
      · exact hbnd
      split
      · exact hbnd
      · exact idsBounded_setTx s id _ hbnd (getTx_isSome s id txn hx)
  · intro s e id r a hbnd
    cases hs : s.admin with
    | none =>
      rw [resolve_eq_uninit s e id r a hs]
      exact hbnd
    | some stored =>
      cases hx : getTx s id with
      | none =>
        rw [resolve_eq_notfound s e id r a stored hs hx]
        split
        · exact hbnd
        · exact hbnd
      | some txn =>
        rw [resolve_eq s e id r a stored txn hs hx]
        split
        · exact hbnd
        split
        · exact hbnd
        split
        · exact idsBounded_setTx s id _ hbnd (getTx_isSome s id txn hx)
        · exact idsBounded_setTx s id _ hbnd (getTx_isSome s id txn hx)
  · intro s e id hbnd
    cases hx : getTx s id with
    | none =>
      rw [check_eq_notfound s e id hx]
      exact hbnd
    | some txn =>
      rw [check_eq s e id txn hx]
      split
      · exact hbnd
      · exact hrelease _ e id hbnd

set_option maxRecDepth 10000 in
/-- C10 witness: the first concrete creation returns id 1, a second
creation from the resulting state returns id 2, writes counter 2, finds
id 2 unoccupied, and keeps all ids bounded by the counter. -/
theorem sequential_transaction_ids_witness :
    (1 : Nat) = sInit.txCounter.getD 0 + 1 ∧
    (create_payment sInit eStd 1 2 1000 3 20 5).2.1.txCounter = some 1 ∧
    (2 : Nat) = sHeld.txCounter.getD 0 + 1 ∧
    (create_payment sHeld eStd 4 2 500 3 10 1).2.1.txCounter = some 2 ∧
    getTx sHeld 2 = none ∧
    idsBounded (create_payment sHeld eStd 4 2 500 3 10 1).2.1 := by
  have hb0 : idsBounded sInit := by
    intro j hj
    exact absurd hj (by simp [sInit])
  have h1 := sequential_transaction_ids.2.1 sInit eStd 1 2 1000 3 20 5 1
    (by decide)
  have h2 := sequential_transaction_ids.2.1 sHeld eStd 4 2 500 3 10 1 2
    (by decide)
  have hbH : idsBounded sHeld :=
    (sequential_transaction_ids.2.2.2.2.2.2.2.2.1 sInit eStd 1 2 1000 3 20 5 1
      hb0 (by decide)).2.2
  have h3 := sequential_transaction_ids.2.2.2.2.2.2.2.2.1 sHeld eStd 4 2 500
    3 10 1 2 hbH (by decide)
  exact ⟨h1.1, h1.2, h2.1, h2.2, h3.1, h3.2.2⟩

end Stellr
